import Mathlib

/-!
Verification of the consistency core of the REST-backend-virtual-capsules
service (Rust / Rocket).  The data model and every operation below are a
shallow embedding of the handlers in `src/contributors.rs`, `src/capsules.rs`,
`src/items.rs` and `src/merges.rs`:

* `DateTime<Utc>` is modelled as `Int` (a timestamp); `Utc::now()` becomes an
  explicit `now : Int` argument.  The source calls `Utc::now()` several times
  inside one handler; those instants are all modelled by the same `now`, which
  is immaterial to the properties proved here.
* `u32` ids and versions are modelled as `Nat`; no claim touches the 2^32
  overflow boundary.
* A Rust panic (`unwrap`/`expect` on `None`, slice or index out of bounds,
  `usize` underflow) is modelled by returning `none` from the operation.
* Errors are the `(Status, message)` pairs the handlers build; the message
  strings are copied verbatim from the source.
-/

/-- HTTP status carried by an error response. -/
inductive HStatus where
  | badRequest
  | conflict
  | notFound
  | forbidden
deriving DecidableEq, Repr

/-- An error response: status plus the body string from the source. -/
abbrev Err := HStatus × String

/-- Embedding of `Contributor` record, `contributors.rs` lines 12-20. -/
structure Contributor where
  id : Nat
  capsule_ids : Option (List Nat)
  name : String
  email : String
deriving DecidableEq, Repr

/-- Embedding of `Capsule` record, `capsules.rs` lines 15-28. -/
structure Capsule where
  id : Nat
  contributor_id : Nat
  name : String
  description : String
  time_created : Int
  time_changed : Option Int
  time_open : Int
  time_until_changed : Int
  item_ids : Option (List Nat)
  version : Nat
deriving DecidableEq, Repr

/-- Embedding of `Item` record, `items.rs` lines 15-28 (`metadata` kept as its JSON text). -/
structure Item where
  id : Nat
  id_capsule : Nat
  type_c : String
  time_added : Int
  description : String
  size : String
  path : String
  metadata : String
  version : Nat
deriving DecidableEq, Repr

/-- Embedding of `CapsuleDetails`, `merges.rs` lines 12-21 (note: `time_changed` is not
optional here; the `From<Capsule>` impl `expect`s it). -/
structure CapsuleDetails where
  id : Nat
  contributor_id : Nat
  time_created : Int
  time_changed : Int
  description : String
  name : String
  item_ids : Option (List Nat)
deriving DecidableEq, Repr

/-- Embedding of `MergeRecord`, `merges.rs` lines 23-28. -/
structure MergeRecord where
  old_capsule1 : CapsuleDetails
  old_capsule2 : CapsuleDetails
  new_merged_capsule : CapsuleDetails
deriving DecidableEq, Repr

/-- The four global `Mutex`-protected vectors (`CONTRIBUTORS`, `CAPSULES`,
`ITEMS`, `MERGE_RECORDS`) gathered into one state record. -/
structure Store where
  contributors : List Contributor
  capsules : List Capsule
  items : List Item
  merge_records : List MergeRecord
deriving DecidableEq, Repr

/-- Embedding of `NewCapsule` creation payload, `capsules.rs` lines 38-45. -/
structure NewCapsule where
  name : String
  description : String
  contributor_id : Nat
  time_open : Int
deriving DecidableEq, Repr

/-- Embedding of `CapsulePatch` body, `capsules.rs` lines 30-36. -/
structure CapsulePatch where
  name : Option String
  description : Option String
  version : Option Nat
deriving DecidableEq, Repr

/-- Embedding of `NewItem` creation payload, `items.rs` lines 30-38. -/
structure NewItem where
  type_c : String
  description : String
  size : String
  path : String
  metadata : String
deriving DecidableEq, Repr

/-- Embedding of `NewItemUpdate` patch body, `items.rs` lines 40-45 (`description` is a
mandatory field, only `version` is optional). -/
structure NewItemUpdate where
  description : String
  version : Option Nat
deriving DecidableEq, Repr

/-- Embedding of `NewContributor` creation payload, `contributors.rs` lines 22-28. -/
structure NewContributor where
  name : String
  email : String
deriving DecidableEq, Repr

/-- Apply `f` to the first element satisfying `p`, leave the rest unchanged:
the effect of Rust's `iter_mut().find(p)` followed by a mutation of the
found element (no-op when nothing matches). -/
def updateFirst (p : α → Bool) (f : α → α) : List α → List α
  | [] => []
  | x :: xs => if p x then f x :: xs else x :: updateFirst p f xs

/-- Remove the first element satisfying `p`: the effect of
`iter().position(p)` followed by `Vec::remove` (no-op when nothing matches). -/
def eraseFirst (p : α → Bool) : List α → List α
  | [] => []
  | x :: xs => if p x then xs else x :: eraseFirst p xs

/-- The id allocator `iter().max_by_key(|r| r.id).map_or(1, |m| m.id + 1)`: one more than the
maximal id present, and `1` on the empty collection. -/
def nextId (ids : List Nat) : Nat := ids.foldr max 0 + 1

/-- One week (`Duration::weeks(1)`) in seconds, used for `time_until_changed`. -/
def oneWeek : Int := 604800

/-! ## Contributor operations (`contributors.rs`) -/

/-- Embedding of `create_contributor`, `contributors.rs` lines 59-78.  Note the id is
`contributors.len() as u32 + 1`, not a max-based allocation. -/
def create_contributor (data : NewContributor) (s : Store) :
    Except Err Contributor × Store :=
  if s.contributors.any (fun c => c.email == data.email) then
    (.error (.conflict, "Email already in use"), s)
  else
    let id := s.contributors.length + 1
    let contributor : Contributor :=
      { id := id, name := data.name, email := data.email, capsule_ids := none }
    (.ok contributor, { s with contributors := s.contributors ++ [contributor] })

/-- Embedding of `delete_contributor`, `contributors.rs` lines 154-181: remove the
contributor, remove every capsule whose `contributor_id` matches, and retain
only the items whose `id_capsule` is not among the removed capsule ids. -/
def delete_contributor (contributor_id : Nat) (s : Store) :
    Except Err Unit × Store :=
  match s.contributors.find? (fun c => c.id == contributor_id) with
  | none => (.error (.notFound, "Contributor not found"), s)
  | some _ =>
    let contributors' := eraseFirst (fun c => c.id == contributor_id) s.contributors
    let capsule_ids_to_remove :=
      (s.capsules.filter (fun c => c.contributor_id == contributor_id)).map (fun c => c.id)
    let capsules' := s.capsules.filter (fun c => !(c.contributor_id == contributor_id))
    let items' := s.items.filter (fun it => !(capsule_ids_to_remove.contains it.id_capsule))
    (.ok (), { s with contributors := contributors', capsules := capsules', items := items' })

/-! ## Capsule operations (`capsules.rs`) -/

/-- Embedding of `create_and_update_capsule`, `capsules.rs` lines 124-171.  The active
creation handler: no idempotency-ledger check is performed (that code is
commented out in the source); the "simulated PUT" immediately rewrites the
same name/description and sets `time_changed`. -/
def create_and_update_capsule (now : Int) (data : NewCapsule) (s : Store) :
    Except Err Capsule × Store :=
  if !(s.contributors.any (fun c => c.id == data.contributor_id)) then
    (.error (.badRequest, "Contributor not found"), s)
  else
    let id := nextId (s.capsules.map (fun c => c.id))
    let capsule : Capsule :=
      { id := id, name := data.name, description := data.description,
        time_created := now, time_changed := some now, time_open := data.time_open,
        time_until_changed := now + oneWeek, contributor_id := data.contributor_id,
        item_ids := none, version := 1 }
    let capsules' := s.capsules ++ [capsule]
    let contributors' := updateFirst (fun c => c.id == data.contributor_id)
      (fun c => { c with capsule_ids := some (c.capsule_ids.getD [] ++ [capsule.id]) })
      s.contributors
    (.ok capsule, { s with capsules := capsules', contributors := contributors' })

/-- Embedding of `list_capsules`, `capsules.rs` lines 176-193.  Returns the page slice and
the total count.  `none` models the panics of the source: the slice
`capsules[start..end.min(len)]` panics whenever `start` exceeds the clamped
upper bound, and `page = 0` underflows `(page - 1) * per_page` on `usize`
(debug panic; the release wrap lands out of range as well). -/
def list_capsules (page per_page : Option Nat) (s : Store) :
    Option (List Capsule × Nat) :=
  let pp := per_page.getD 10
  let pg := page.getD 1
  if pg == 0 then none
  else
    let start := (pg - 1) * pp
    let stop := min (start + pp) s.capsules.length
    if start ≤ stop then some ((s.capsules.drop start).take (stop - start), s.capsules.length)
    else none

/-- Embedding of `update_capsule` (full-record PUT), `capsules.rs` lines 206-220: after the
window check the stored record is wholly replaced by the request body
(`*capsule = capsule_data.into_inner()`), then `time_changed` is set. -/
def update_capsule (now : Int) (cid : Nat) (body : Capsule) (s : Store) :
    Except Err Capsule × Store :=
  match s.capsules.find? (fun c => c.id == cid) with
  | none => (.error (.notFound, "Capsule not found"), s)
  | some c =>
    if now > c.time_until_changed then
      (.error (.badRequest, "The modification period for this capsule has expired"), s)
    else
      let c' := { body with time_changed := some now }
      (.ok c', { s with capsules := updateFirst (fun x => x.id == cid) (fun _ => c') s.capsules })

/-- The mutation a successful capsule PATCH applies to the found record,
`capsules.rs` lines 249-264: copy the supplied fields, set `time_changed`,
increment `version`. -/
def applyCapsulePatch (data : CapsulePatch) (now : Int) (c : Capsule) : Capsule :=
  let c1 := match data.name with
    | some n => { c with name := n }
    | none => c
  let c2 := match data.description with
    | some d => { c1 with description := d }
    | none => c1
  { c2 with time_changed := some now, version := c2.version + 1 }

/-- The guard of `capsules.rs` lines 232-237: the request is ambiguous when
ETag and body version are both present and unequal
(`match (etag, version) \x7b (Some(e), Some(v)) if e != v => ..., _ => \x7d`). -/
def etagBodyConflict : Option Nat → Option Nat → Bool
  | some e, some v => e != v
  | _, _ => false

/-- Embedding of `patch_capsule`, `capsules.rs` lines 222-272. -/
def patch_capsule (now : Int) (cid : Nat) (etag : Option Nat) (data : CapsulePatch)
    (s : Store) : Except Err Capsule × Store :=
  match s.capsules.find? (fun c => c.id == cid) with
  | none => (.error (.notFound, "Capsule not found."), s)
  | some c =>
    if now > c.time_until_changed then
      (.error (.badRequest, "The modification period for this capsule has expired"), s)
    else if etagBodyConflict etag data.version then
      (.error (.badRequest,
        "Conflicting versions provided. Please verify the ETag and JSON body version."), s)
    else
      match etag.or data.version with
      | none => (.error (.badRequest, "Version number is required."), s)
      | some version =>
        if c.version != version then
          (.error (.conflict, "Version mismatch. Please refresh your data."), s)
        else
          if data.name.isSome || data.description.isSome then
            (.ok (applyCapsulePatch data now c),
             { s with capsules :=
                 updateFirst (fun x => x.id == cid) (applyCapsulePatch data now) s.capsules })
          else
            (.error (.badRequest, "No valid fields provided for update."), s)

/-- Embedding of `delete_capsule`, `capsules.rs` lines 276-312: capture the capsule's
`item_ids` (empty when absent), remove the capsule, retain only items whose
id is not in the captured set, and remove the first occurrence of `cid` from
the owning contributor's `capsule_ids`. -/
def delete_capsule (cid : Nat) (s : Store) : Except Err Unit × Store :=
  match s.capsules.find? (fun c => c.id == cid) with
  | none => (.error (.notFound, "Capsule not found"), s)
  | some c =>
    let item_ids_to_remove := c.item_ids.getD []
    let capsules' := eraseFirst (fun x => x.id == cid) s.capsules
    let items' := s.items.filter (fun it => !(item_ids_to_remove.contains it.id))
    let contributors' := updateFirst (fun ctr => ctr.id == c.contributor_id)
      (fun ctr => { ctr with capsule_ids := ctr.capsule_ids.map (fun ids => ids.erase cid) })
      s.contributors
    (.ok (), { s with capsules := capsules', items := items', contributors := contributors' })

/-! ## Item operations (`items.rs`) -/

/-- Embedding of the `get_all_items` pagination, `items.rs` lines 95-112; same slicing (and the
same panic surface) as `list_capsules`. -/
def get_all_items (page per_page : Option Nat) (s : Store) :
    Option (List Item × Nat) :=
  let pp := per_page.getD 10
  let pg := page.getD 1
  if pg == 0 then none
  else
    let start := (pg - 1) * pp
    let stop := min (start + pp) s.items.length
    if start ≤ stop then some ((s.items.drop start).take (stop - start), s.items.length)
    else none

/-- Embedding of `add_item_to_capsule`, `items.rs` lines 150-202.  The idempotency-key
check of the source is commented out; the active handler only checks capsule
existence and the modification window. -/
def add_item_to_capsule (now : Int) (cid : Nat) (data : NewItem) (s : Store) :
    Except Err Item × Store :=
  match s.capsules.find? (fun c => c.id == cid) with
  | none =>
    (.error (.notFound, "Capsule with ID " ++ toString cid ++ " not found"), s)
  | some cap =>
    if now > cap.time_until_changed then
      (.error (.badRequest, "The modification period for this capsule has expired"), s)
    else
      let new_id := nextId (s.items.map (fun it => it.id))
      let new_item : Item :=
        { id := new_id, id_capsule := cid, type_c := data.type_c,
          description := data.description, size := data.size, path := data.path,
          metadata := data.metadata, time_added := now, version := 1 }
      let capsules' := updateFirst (fun c => c.id == cid)
        (fun c => { c with item_ids := some (c.item_ids.getD [] ++ [new_id]),
                           time_changed := some now })
        s.capsules
      (.ok new_item, { s with capsules := capsules', items := s.items ++ [new_item] })

/-- The mutation a successful item PATCH applies to the found item,
`items.rs` lines 247-249. -/
def applyItemPatch (upd : NewItemUpdate) (it : Item) : Item :=
  { it with description := upd.description, version := it.version + 1 }

/-- Embedding of `patch_capsule_item_description`, `items.rs` lines 222-257.  The version
guard here only resolves `etag.or(body.version)` and compares it with the
item's version; there is no ambiguous-precondition check and no separate
missing-version error. -/
def patch_capsule_item_description (now : Int) (capsule_id item_id : Nat)
    (etag : Option Nat) (upd : NewItemUpdate) (s : Store) :
    Except Err Item × Store :=
  match s.capsules.find? (fun c =>
      c.id == capsule_id && (c.item_ids.getD []).contains item_id) with
  | none =>
    (.error (.notFound, "No item with ID " ++ toString item_id ++
      " found in capsule " ++ toString capsule_id), s)
  | some cap =>
    if now > cap.time_until_changed then
      (.error (.badRequest, "The modification period for this capsule has expired"), s)
    else
      match s.items.find? (fun it => it.id == item_id) with
      | none =>
        (.error (.notFound, "No item with ID " ++ toString item_id ++
          " found in capsule " ++ toString capsule_id), s)
      | some it =>
        let version_to_check := etag.or upd.version
        if version_to_check.isNone || version_to_check != some it.version then
          (.error (.conflict, "Version mismatch. Please refresh your data."), s)
        else
          let items' := updateFirst (fun x => x.id == item_id) (applyItemPatch upd) s.items
          let capsules' := updateFirst (fun c =>
              c.id == capsule_id && (c.item_ids.getD []).contains item_id)
            (fun c => { c with time_changed := some now }) s.capsules
          (.ok (applyItemPatch upd it), { s with items := items', capsules := capsules' })

/-- Embedding of `delete_capsule_item`, `items.rs` lines 262-284.  `none` models the
`capsule.item_ids.as_mut().unwrap()` panic when the found capsule's
`item_ids` is absent. -/
def delete_capsule_item (now : Int) (capsule_id item_id : Nat) (s : Store) :
    Option (Except Err Unit × Store) :=
  match s.capsules.find? (fun c => c.id == capsule_id) with
  | none =>
    some ((.error (.notFound, "Item with ID " ++ toString item_id ++
      " not found in capsule " ++ toString capsule_id)), s)
  | some cap =>
    if now > cap.time_until_changed then
      some ((.error (.badRequest, "The modification period for this capsule has expired")), s)
    else
      match cap.item_ids with
      | none => none
      | some ids =>
        if ids.contains item_id then
          let capsules' := updateFirst (fun c => c.id == capsule_id)
            (fun c => { c with item_ids := c.item_ids.map (fun l => l.erase item_id),
                               time_changed := some now }) s.capsules
          let items' := s.items.filter (fun it => !(it.id == item_id))
          some ((.ok ()), { s with capsules := capsules', items := items' })
        else
          some ((.error (.notFound, "Item with ID " ++ toString item_id ++
            " not found in capsule " ++ toString capsule_id)), s)

/-! ## Merge operation (`merges.rs`) -/

/-- The loop of `merges.rs` lines 83-87: for each transferred item id, find
the first item with that id and point its `id_capsule` at the surviving
capsule. -/
def reparentItems (target : Nat) (ids : List Nat) (items : List Item) : List Item :=
  ids.foldl
    (fun acc item_id =>
      updateFirst (fun i => i.id == item_id)
        (fun i => { i with id_capsule := target }) acc)
    items

/-- Embedding of `merge_capsules`, `merges.rs` lines 52-126, transcribed index by index.
`none` models the panics of the source:
* `capsules[idx].time_changed.unwrap()` on line 73 when `time_changed` is
  absent (the `||` short-circuits, so the second unwrap only runs when the
  first comparison is false);
* the post-removal indexing `capsules[idx1]` / `capsules[idx2]` on lines
  108-114, which reads the shifted vector after `capsules.remove(idx2)` and
  falls out of bounds whenever either index reaches the shortened length. -/
def merge_capsules (now : Int) (capsule_id1 capsule_id2 : Nat) (s : Store) :
    Option (Except Err CapsuleDetails × Store) :=
  match s.capsules.findIdx? (fun c => c.id == capsule_id1),
        s.capsules.findIdx? (fun c => c.id == capsule_id2) with
  | some idx1, some idx2 =>
    match s.capsules[idx1]?, s.capsules[idx2]? with
    | some c1, some c2 =>
      if c1.contributor_id != c2.contributor_id then
        some (.error (.forbidden, "Capsules have different contributors."), s)
      else
        match c1.time_changed with
        | none => none
        | some t1 =>
          if t1 > now then
            some (.error (.forbidden, "Capsule modification not allowed at this time."), s)
          else
            match c2.time_changed with
            | none => none
            | some t2 =>
              if t2 > now then
                some (.error (.forbidden, "Capsule modification not allowed at this time."), s)
              else
                let old_capsule1 : CapsuleDetails :=
                  { id := c1.id, contributor_id := c1.contributor_id,
                    time_created := c1.time_created, time_changed := t1,
                    description := c1.description, name := c1.name,
                    item_ids := c1.item_ids }
                let old_capsule2 : CapsuleDetails :=
                  { id := c2.id, contributor_id := c2.contributor_id,
                    time_created := c2.time_created, time_changed := t2,
                    description := c2.description, name := c2.name,
                    item_ids := c2.item_ids }
                -- `capsules[idx2].item_ids.take()`
                let item_ids_from_capsule2 := c2.item_ids.getD []
                let caps0 := s.capsules.set idx2 { c2 with item_ids := none }
                let items' := reparentItems c1.id item_ids_from_capsule2 s.items
                -- extend capsule 1's item_ids, reading the slot after the take
                match caps0[idx1]? with
                | none => none
                | some c1t =>
                  let merged_ids := c1t.item_ids.getD [] ++ item_ids_from_capsule2
                  let caps1 := caps0.set idx1 { c1t with item_ids := some merged_ids }
                  let contributors' := updateFirst (fun ctr => ctr.id == c1.contributor_id)
                    (fun ctr => { ctr with capsule_ids :=
                        ctr.capsule_ids.map (fun l => l.filter (fun x => !(x == c2.id))) })
                    s.contributors
                  -- `capsules.remove(idx2)`
                  let caps2 := caps1.eraseIdx idx2
                  -- lines 107-115: build the response from the *shifted* vector
                  match caps2[idx1]?, caps2[idx2]? with
                  | some ca, some cb =>
                    let updated_capsule : CapsuleDetails :=
                      { id := ca.id, contributor_id := ca.contributor_id,
                        time_created := ca.time_created, time_changed := now,
                        description := "Updated by merging with Capsule " ++ toString cb.id,
                        name := ca.name, item_ids := ca.item_ids }
                    let merge_record : MergeRecord :=
                      { old_capsule1 := old_capsule1, old_capsule2 := old_capsule2,
                        new_merged_capsule := updated_capsule }
                    some (.ok updated_capsule,
                      { s with capsules := caps2, items := items',
                               contributors := contributors',
                               merge_records := s.merge_records ++ [merge_record] })
                  | _, _ => none
    | _, _ => none
  | _, _ => some (.error (.badRequest, "One or both capsules not found."), s)

/-! ## Lock-acquisition orders

Each list transcribes, in source order, the `.lock()` calls a handler makes
on the four global mutexes before doing any work. -/

/-- The four global mutexes of the system. -/
inductive LockTarget where
  | contributorsLock
  | capsulesLock
  | itemsLock
  | mergeRecordsLock
deriving DecidableEq, BEq, Repr

/-- Lock order of `delete_capsule`, `capsules.rs` lines 278-280: CAPSULES, ITEMS,
CONTRIBUTORS. -/
def delete_capsule_locks : List LockTarget :=
  [.capsulesLock, .itemsLock, .contributorsLock]

/-- Lock order of `add_item_to_capsule`, `items.rs` lines 152-153: ITEMS, CAPSULES. -/
def add_item_to_capsule_locks : List LockTarget :=
  [.itemsLock, .capsulesLock]

/-- Lock order of `patch_capsule_item_description`, `items.rs` lines 229-230: ITEMS,
CAPSULES. -/
def patch_item_locks : List LockTarget :=
  [.itemsLock, .capsulesLock]

/-- Lock order of `merge_capsules`, `merges.rs` lines 54-56 and 123: CAPSULES, ITEMS,
CONTRIBUTORS, then MERGE_RECORDS at the end. -/
def merge_capsules_locks : List LockTarget :=
  [.capsulesLock, .itemsLock, .contributorsLock, .mergeRecordsLock]

/-- Lock order of `delete_contributor`, `contributors.rs` lines 156-158: CONTRIBUTORS,
CAPSULES, ITEMS. -/
def delete_contributor_locks : List LockTarget :=
  [.contributorsLock, .capsulesLock, .itemsLock]

/-- The fixed global order the specification claims every multi-collection
operation follows. -/
def claimedGlobalLockOrder : List LockTarget :=
  [.contributorsLock, .capsulesLock, .itemsLock]

/-! ## General lemmas about the helper functions -/

theorem find?_updateFirst (p : α → Bool) (f : α → α) (hp : ∀ x, p (f x) = p x) :
    ∀ l : List α, (updateFirst p f l).find? p = (l.find? p).map f
  | [] => rfl
  | x :: xs => by
    by_cases hx : p x
    · simp [updateFirst, hx, List.find?_cons_of_pos, hp x]
    · simp only [updateFirst, hx, if_false, Bool.false_eq_true]
      rw [List.find?_cons_of_neg _ hx, List.find?_cons_of_neg _ hx,
        find?_updateFirst p f hp xs]

theorem le_foldr_max (l : List Nat) : ∀ x ∈ l, x ≤ l.foldr max 0 := by
  induction l with
  | nil => simp
  | cons h t ih =>
    intro x hx
    rcases List.mem_cons.mp hx with rfl | hx
    · exact le_max_left _ _
    · exact le_trans (ih x hx) (le_max_right _ _)

theorem nextId_not_mem (l : List Nat) : nextId l ∉ l := by
  intro h
  have := le_foldr_max l _ h
  simp only [nextId] at this
  omega

theorem applyCapsulePatch_id (data : CapsulePatch) (now : Int) (c : Capsule) :
    (applyCapsulePatch data now c).id = c.id := by
  unfold applyCapsulePatch
  cases data.name <;> cases data.description <;> rfl

theorem applyCapsulePatch_version (data : CapsulePatch) (now : Int) (c : Capsule) :
    (applyCapsulePatch data now c).version = c.version + 1 := by
  unfold applyCapsulePatch
  cases data.name <;> cases data.description <;> rfl

/-- The ids of the capsules removed by `delete_contributor cid`
(`capsule_ids_to_remove`, `contributors.rs` lines 165-169). -/
def removedCapsuleIds (cid : Nat) (s : Store) : List Nat :=
  (s.capsules.filter (fun c => c.contributor_id == cid)).map (fun c => c.id)

/-- C7: for every successful DeleteContributor(cid), exactly the items whose
`id_capsule` (the capsule-reference field) lies in the set of removed capsule
ids are removed from the item collection, and every item belonging to a
capsule of a different contributor survives (assuming, per the data model,
that capsule ids are unique). -/
theorem delete_contributor_cascade_by_capsule_reference
    (cid : Nat) (s : Store)
    (hok : (delete_contributor cid s).1 = .ok ())
    (hids : (s.capsules.map (fun c => c.id)).Nodup) :
    (∀ it, it ∈ (delete_contributor cid s).2.items ↔
        it ∈ s.items ∧ it.id_capsule ∉ removedCapsuleIds cid s) ∧
    (∀ it ∈ s.items,
        (∃ K, K ∈ s.capsules ∧ K.id = it.id_capsule ∧ K.contributor_id ≠ cid) →
        it ∈ (delete_contributor cid s).2.items) := by
  cases hfind : s.contributors.find? (fun c => c.id == cid) with
  | none => simp [delete_contributor, hfind] at hok
  | some ctr =>
    have hitems : (delete_contributor cid s).2.items
        = s.items.filter
            (fun it => !((removedCapsuleIds cid s).contains it.id_capsule)) := by
      simp [delete_contributor, hfind, removedCapsuleIds]
    have hmem : ∀ it : Item, it ∈ (delete_contributor cid s).2.items ↔
        it ∈ s.items ∧ it.id_capsule ∉ removedCapsuleIds cid s := by
      intro it
      rw [hitems, List.mem_filter]
      simp
    refine ⟨hmem, ?_⟩
    intro it hit hex
    obtain ⟨K, hK, hKid, hKc⟩ := hex
    rw [hmem]
    refine ⟨hit, ?_⟩
    intro habs
    obtain ⟨K', hK', hK'id⟩ := List.mem_map.mp habs
    have hK'mem : K' ∈ s.capsules := (List.mem_filter.mp hK').1
    have hK'c : K'.contributor_id = cid := by
      have := (List.mem_filter.mp hK').2
      simpa using this
    have : K' = K :=
      List.inj_on_of_nodup_map hids hK'mem hK (by rw [hK'id, hKid])
    exact hKc (this ▸ hK'c)

/-- Concrete store for exercising the contributor-deletion cascade: two
contributors, one capsule and one item each. -/
def c7store : Store :=
  { contributors := [{ id := 1, capsule_ids := some [1], name := "N", email := "n@x" },
                     { id := 2, capsule_ids := some [2], name := "M", email := "m@x" }],
    capsules := [{ id := 1, contributor_id := 1, name := "C1", description := "d",
                   time_created := 0, time_changed := some 0, time_open := 0,
                   time_until_changed := 100, item_ids := some [10], version := 1 },
                 { id := 2, contributor_id := 2, name := "C2", description := "d",
                   time_created := 0, time_changed := some 0, time_open := 0,
                   time_until_changed := 100, item_ids := some [20], version := 1 }],
    items := [{ id := 10, id_capsule := 1, type_c := "t", time_added := 0,
                description := "d", size := "s", path := "p", metadata := "m",
                version := 1 },
              { id := 20, id_capsule := 2, type_c := "t", time_added := 0,
                description := "d", size := "s", path := "p", metadata := "m",
                version := 1 }],
    merge_records := [] }

/-- Witness for `delete_contributor_cascade_by_capsule_reference` on
`c7store` with `cid = 1`. -/
theorem delete_contributor_cascade_by_capsule_reference_witness :
    ((delete_contributor 1 c7store).1 = .ok () ∧
      (c7store.capsules.map (fun c => c.id)).Nodup) ∧
    ((∀ it, it ∈ (delete_contributor 1 c7store).2.items ↔
        it ∈ c7store.items ∧ it.id_capsule ∉ removedCapsuleIds 1 c7store) ∧
     (∀ it ∈ c7store.items,
        (∃ K, K ∈ c7store.capsules ∧ K.id = it.id_capsule ∧ K.contributor_id ≠ 1) →
        it ∈ (delete_contributor 1 c7store).2.items)) :=
  ⟨⟨by rfl, by decide⟩,
   delete_contributor_cascade_by_capsule_reference 1 c7store (by rfl) (by decide)⟩

/-- C3: for every successful DeleteCapsule(cid), assuming the I1 direction
that every live item pointing at the capsule is indexed in the capsule's
`item_ids`, and (per the data model, where `capsule_ids` is a set) that the
owning contributor's `capsule_ids` has no duplicates: afterwards no item with
`id_capsule = cid` remains, and `cid` is absent from the former contributor's
`capsule_ids`. -/
theorem delete_capsule_purges_items_and_owner_reference
    (cid : Nat) (s : Store) (c : Capsule)
    (hfind : s.capsules.find? (fun x => x.id == cid) = some c)
    (hI1 : ∀ it ∈ s.items, it.id_capsule = cid → it.id ∈ c.item_ids.getD [])
    (hset : ∀ ctr ∈ s.contributors, ctr.id = c.contributor_id →
        (ctr.capsule_ids.getD []).Nodup) :
    (∀ it ∈ (delete_capsule cid s).2.items, it.id_capsule ≠ cid) ∧
    (∀ ctr, (delete_capsule cid s).2.contributors.find?
        (fun x => x.id == c.contributor_id) = some ctr →
      cid ∉ ctr.capsule_ids.getD []) := by
  have hres : (delete_capsule cid s).2 =
      { s with
        capsules := eraseFirst (fun x => x.id == cid) s.capsules,
        items := s.items.filter (fun it => !((c.item_ids.getD []).contains it.id)),
        contributors := updateFirst (fun ctr => ctr.id == c.contributor_id)
          (fun ctr => { ctr with
            capsule_ids := ctr.capsule_ids.map (fun ids => ids.erase cid) })
          s.contributors } := by
    simp [delete_capsule, hfind]
  constructor
  · intro it hit heq
    rw [hres] at hit
    obtain ⟨hmem, hkeep⟩ := List.mem_filter.mp hit
    have hin := hI1 it hmem heq
    simp at hkeep
    exact hkeep hin
  · intro ctr hctr
    rw [hres] at hctr
    have hctr2 : (updateFirst (fun ctr => ctr.id == c.contributor_id)
        (fun ctr => { ctr with
          capsule_ids := ctr.capsule_ids.map (fun ids => ids.erase cid) })
        s.contributors).find? (fun x => x.id == c.contributor_id) = some ctr := hctr
    rw [find?_updateFirst (fun (x : Contributor) => x.id == c.contributor_id)
      (fun (ctr : Contributor) => { ctr with
        capsule_ids := ctr.capsule_ids.map (fun ids => ids.erase cid) })
      (fun x => rfl)] at hctr2
    clear hctr
    rename' hctr2 => hctr
    cases hfc : s.contributors.find? (fun x => x.id == c.contributor_id) with
    | none => rw [hfc] at hctr; simp at hctr
    | some ctr0 =>
      rw [hfc] at hctr
      have hctr3 : ctr = { ctr0 with
          capsule_ids := ctr0.capsule_ids.map (fun ids => ids.erase cid) } := by
        have h4 : some ({ ctr0 with
            capsule_ids := ctr0.capsule_ids.map (fun ids => ids.erase cid) } :
              Contributor) = some ctr := hctr
        exact (Option.some.inj h4).symm
      have hmem0 := List.mem_of_find?_eq_some hfc
      have hid0 : ctr0.id = c.contributor_id := by
        have := List.find?_some hfc
        simpa using this
      have hnd := hset ctr0 hmem0 hid0
      cases hcap : ctr0.capsule_ids with
      | none => simp [hctr3, hcap]
      | some l =>
        have hl : l.Nodup := by
          rw [hcap] at hnd
          simpa using hnd
        simp only [hctr3, hcap, Option.map_some, Option.getD_some]
        exact hl.not_mem_erase

/-- The capsule deleted in the `delete_capsule` witness scenario. -/
def c3cap : Capsule :=
  { id := 1, contributor_id := 1, name := "C1", description := "d",
    time_created := 0, time_changed := some 0, time_open := 0,
    time_until_changed := 100, item_ids := some [10], version := 1 }

/-- Concrete store for exercising `delete_capsule`. -/
def c3store : Store :=
  { contributors := [{ id := 1, capsule_ids := some [1, 2], name := "N", email := "n@x" }],
    capsules := [c3cap,
                 { c3cap with id := 2, item_ids := some [20] }],
    items := [{ id := 10, id_capsule := 1, type_c := "t", time_added := 0,
                description := "d", size := "s", path := "p", metadata := "m",
                version := 1 },
              { id := 20, id_capsule := 2, type_c := "t", time_added := 0,
                description := "d", size := "s", path := "p", metadata := "m",
                version := 1 }],
    merge_records := [] }

/-- Witness for `delete_capsule_purges_items_and_owner_reference` on
`c3store` with `cid = 1`. -/
theorem delete_capsule_purges_items_and_owner_reference_witness :
    (c3store.capsules.find? (fun x => x.id == 1) = some c3cap ∧
     (∀ it ∈ c3store.items, it.id_capsule = 1 → it.id ∈ c3cap.item_ids.getD []) ∧
     (∀ ctr ∈ c3store.contributors, ctr.id = c3cap.contributor_id →
        (ctr.capsule_ids.getD []).Nodup)) ∧
    ((∀ it ∈ (delete_capsule 1 c3store).2.items, it.id_capsule ≠ 1) ∧
     (∀ ctr, (delete_capsule 1 c3store).2.contributors.find?
        (fun x => x.id == c3cap.contributor_id) = some ctr →
       1 ∉ ctr.capsule_ids.getD [])) :=
  ⟨⟨by rfl, by decide, by decide⟩,
   delete_capsule_purges_items_and_owner_reference 1 c3store c3cap
     (by rfl) (by decide) (by decide)⟩

/-- Normal form of `patch_capsule` once the capsule is found and the
modification window is open. -/
theorem patch_capsule_found (now : Int) (cid : Nat) (etag : Option Nat)
    (data : CapsulePatch) (s : Store) (c : Capsule)
    (hfind : s.capsules.find? (fun x => x.id == cid) = some c)
    (hw : ¬ now > c.time_until_changed) :
    patch_capsule now cid etag data s =
      if etagBodyConflict etag data.version then
        (.error (.badRequest,
          "Conflicting versions provided. Please verify the ETag and JSON body version."), s)
      else
        match etag.or data.version with
        | none => (.error (.badRequest, "Version number is required."), s)
        | some version =>
          if c.version != version then
            (.error (.conflict, "Version mismatch. Please refresh your data."), s)
          else
            if data.name.isSome || data.description.isSome then
              (.ok (applyCapsulePatch data now c),
               { s with capsules :=
                   updateFirst (fun x => x.id == cid) (applyCapsulePatch data now) s.capsules })
            else
              (.error (.badRequest, "No valid fields provided for update."), s) := by
  unfold patch_capsule
  rw [hfind]
  simp only [hw, if_false]

/-- Normal form of `patch_capsule_item_description` once the capsule (with
the item listed) is found, the window is open, and the item is found. -/
theorem patch_item_found (now : Int) (capsule_id item_id : Nat)
    (etag : Option Nat) (upd : NewItemUpdate) (s : Store) (cap : Capsule) (it : Item)
    (hfind : s.capsules.find? (fun c =>
        c.id == capsule_id && (c.item_ids.getD []).contains item_id) = some cap)
    (hw : ¬ now > cap.time_until_changed)
    (hit : s.items.find? (fun x => x.id == item_id) = some it) :
    patch_capsule_item_description now capsule_id item_id etag upd s =
      if (etag.or upd.version).isNone || (etag.or upd.version) != some it.version then
        (.error (.conflict, "Version mismatch. Please refresh your data."), s)
      else
        (.ok (applyItemPatch upd it),
         { s with
             items := updateFirst (fun x => x.id == item_id) (applyItemPatch upd) s.items,
             capsules := updateFirst (fun c =>
                 c.id == capsule_id && (c.item_ids.getD []).contains item_id)
               (fun c => { c with time_changed := some now }) s.capsules }) := by
  unfold patch_capsule_item_description
  rw [hfind, hit]
  simp only [hw, if_false]

/-- C2 (amended): the full ETag/body-version guard holds for the capsule
patch: an ambiguous precondition (both present, unequal) fails with the
conflicting-versions BadRequest; a missing version fails with the
version-required BadRequest; a stale version fails with the
version-mismatch Conflict — each leaving the store unchanged — and a
matching version with at least one updatable field applies the patch with
the version incremented by exactly 1.  The item patch implements none of the
ambiguity or missing-version distinctions: it resolves
`expected = etag.or(body_version)` and fails with the version-mismatch
Conflict exactly when `expected` differts from the item's version (also when
both are absent), otherwise updates the description and increments the
version by exactly 1. -/
theorem patch_version_guard_amended :
    (∀ (now : Int) (cid e v : Nat) (data : CapsulePatch) (s : Store) (c : Capsule),
        s.capsules.find? (fun x => x.id == cid) = some c →
        ¬ now > c.time_until_changed →
        data.version = some v → e ≠ v →
        patch_capsule now cid (some e) data s =
          (.error (.badRequest,
            "Conflicting versions provided. Please verify the ETag and JSON body version."),
           s)) ∧
    (∀ (now : Int) (cid : Nat) (data : CapsulePatch) (s : Store) (c : Capsule),
        s.capsules.find? (fun x => x.id == cid) = some c →
        ¬ now > c.time_until_changed →
        data.version = none →
        patch_capsule now cid none data s =
          (.error (.badRequest, "Version number is required."), s)) ∧
    (∀ (now : Int) (cid v : Nat) (etag : Option Nat) (data : CapsulePatch)
        (s : Store) (c : Capsule),
        s.capsules.find? (fun x => x.id == cid) = some c →
        ¬ now > c.time_until_changed →
        etagBodyConflict etag data.version = false →
        etag.or data.version = some v → v ≠ c.version →
        patch_capsule now cid etag data s =
          (.error (.conflict, "Version mismatch. Please refresh your data."), s)) ∧
    (∀ (now : Int) (cid : Nat) (etag : Option Nat) (data : CapsulePatch)
        (s : Store) (c : Capsule),
        s.capsules.find? (fun x => x.id == cid) = some c →
        ¬ now > c.time_until_changed →
        etagBodyConflict etag data.version = false →
        etag.or data.version = some c.version →
        (data.name.isSome || data.description.isSome) = true →
        patch_capsule now cid etag data s =
          (.ok (applyCapsulePatch data now c),
           { s with capsules :=
               updateFirst (fun x => x.id == cid) (applyCapsulePatch data now) s.capsules }) ∧
        (applyCapsulePatch data now c).version = c.version + 1) ∧
    (∀ (now : Int) (capsule_id item_id : Nat) (etag : Option Nat)
        (upd : NewItemUpdate) (s : Store) (cap : Capsule) (it : Item),
        s.capsules.find? (fun c =>
            c.id == capsule_id && (c.item_ids.getD []).contains item_id) = some cap →
        ¬ now > cap.time_until_changed →
        s.items.find? (fun x => x.id == item_id) = some it →
        etag.or upd.version ≠ some it.version →
        patch_capsule_item_description now capsule_id item_id etag upd s =
          (.error (.conflict, "Version mismatch. Please refresh your data."), s)) ∧
    (∀ (now : Int) (capsule_id item_id : Nat) (etag : Option Nat)
        (upd : NewItemUpdate) (s : Store) (cap : Capsule) (it : Item),
        s.capsules.find? (fun c =>
            c.id == capsule_id && (c.item_ids.getD []).contains item_id) = some cap →
        ¬ now > cap.time_until_changed →
        s.items.find? (fun x => x.id == item_id) = some it →
        etag.or upd.version = some it.version →
        patch_capsule_item_description now capsule_id item_id etag upd s =
          (.ok (applyItemPatch upd it),
           { s with
               items := updateFirst (fun x => x.id == item_id) (applyItemPatch upd) s.items,
               capsules := updateFirst (fun c =>
                   c.id == capsule_id && (c.item_ids.getD []).contains item_id)
                 (fun c => { c with time_changed := some now }) s.capsules }) ∧
        (applyItemPatch upd it).version = it.version + 1) := by
  refine ⟨?_, ?_, ?_, ?_, ?_, ?_⟩
  · intro now cid e v data s c hfind hw hv hne
    rw [patch_capsule_found now cid (some e) data s c hfind hw]
    have hconf : etagBodyConflict (some e) data.version = true := by
      rw [hv]
      simpa [etagBodyConflict] using hne
    rw [hconf]
    rfl
  · intro now cid data s c hfind hw hv
    rw [patch_capsule_found now cid none data s c hfind hw]
    have hconf : etagBodyConflict none data.version = false := by
      simp [etagBodyConflict]
    rw [hconf]
    simp [hv]
  · intro now cid v etag data s c hfind hw hconf hor hne
    rw [patch_capsule_found now cid etag data s c hfind hw]
    rw [hconf]
    simp only [Bool.false_eq_true, if_false, hor]
    have hbne : (c.version != v) = true := by
      simpa using fun h => hne (h.symm)
    rw [hbne]
    simp
  · intro now cid etag data s c hfind hw hconf hor hfields
    rw [patch_capsule_found now cid etag data s c hfind hw]
    rw [hconf]
    simp only [Bool.false_eq_true, if_false, hor]
    simp [hfields, applyCapsulePatch_version]
  · intro now capsule_id item_id etag upd s cap it hfind hw hit hne
    rw [patch_item_found now capsule_id item_id etag upd s cap it hfind hw hit]
    have : ((etag.or upd.version).isNone || (etag.or upd.version) != some it.version) = true := by
      cases h : etag.or upd.version with
      | none => rfl
      | some w =>
        simp only [Option.isNone_some, Bool.false_or, bne_iff_ne, ne_eq,
          Option.some.injEq]
        intro hww
        exact hne (by rw [h, hww])
    rw [this]
    simp
  · intro now capsule_id item_id etag upd s cap it hfind hw hit heq
    rw [patch_item_found now capsule_id item_id etag upd s cap it hfind hw hit]
    rw [heq]
    simp [applyItemPatch]

/-- Capsule 1 of the version-guard scenarios: open window, one item (10). -/
def c2cap : Capsule :=
  { id := 1, contributor_id := 1, name := "C1", description := "d",
    time_created := 0, time_changed := some 0, time_open := 0,
    time_until_changed := 100, item_ids := some [10], version := 1 }

/-- Store for the version-guard scenarios: capsule 1 holding item 10 at
version 1. -/
def c2store : Store :=
  { contributors := [{ id := 1, capsule_ids := some [1], name := "N", email := "n@x" }],
    capsules := [c2cap],
    items := [{ id := 10, id_capsule := 1, type_c := "t", time_added := 0,
                description := "d", size := "s", path := "p", metadata := "m",
                version := 1 }],
    merge_records := [] }

/-- C2 (counterexample): an item patch carrying `etag = 1` and body version
`2` — present and unequal, which the claim says must fail with the
ambiguous-precondition error — is accepted by the code (the ETag alone is
compared), the description is updated, and the stored item's version is
bumped to 2. -/
theorem patch_item_accepts_conflicting_preconditions :
    ((patch_capsule_item_description 10 1 10 (some 1)
        { description := "new", version := some 2 } c2store).1.toOption.map
      (fun it => (it.id, it.description, it.version))) = some (10, "new", 2) ∧
    (patch_capsule_item_description 10 1 10 (some 1)
        { description := "new", version := some 2 } c2store).2.items.map
      (fun it => it.version) = [2] := by
  constructor
  · rfl
  · rfl

/-- Witness for `patch_version_guard_amended`: the capsule-patch ambiguity
conjunct at a concrete input (etag 1, body version 2 on `c2store`). -/
theorem patch_version_guard_amended_witness :
    (c2store.capsules.find? (fun x => x.id == 1) = some c2cap ∧
     ¬ (10 : Int) > c2cap.time_until_changed ∧
     (({ name := some "x", description := none, version := some 2 } :
        CapsulePatch)).version = some 2 ∧ (1 : Nat) ≠ 2) ∧
    patch_capsule 10 1 (some 1)
        { name := some "x", description := none, version := some 2 } c2store =
      (.error (.badRequest,
        "Conflicting versions provided. Please verify the ETag and JSON body version."),
       c2store) :=
  ⟨⟨by rfl, by decide, by rfl, by decide⟩,
   patch_version_guard_amended.1 10 1 1 2
     { name := some "x", description := none, version := some 2 } c2store c2cap
     (by rfl) (by decide) (by rfl) (by decide)⟩

/-- Behaviour of `patch_capsule` when the capsule is found but the window has expired. -/
theorem patch_capsule_expired (now : Int) (cid : Nat) (etag : Option Nat)
    (data : CapsulePatch) (s : Store) (c : Capsule)
    (hfind : s.capsules.find? (fun x => x.id == cid) = some c)
    (hw : now > c.time_until_changed) :
    patch_capsule now cid etag data s =
      (.error (.badRequest, "The modification period for this capsule has expired"), s) := by
  unfold patch_capsule
  rw [hfind]
  simp [hw]

/-- Behaviour of `update_capsule` when the capsule is found and the window is open:
the stored record is replaced by the request body with `time_changed` set. -/
theorem update_capsule_found (now : Int) (cid : Nat) (body : Capsule)
    (s : Store) (c : Capsule)
    (hfind : s.capsules.find? (fun x => x.id == cid) = some c)
    (hw : ¬ now > c.time_until_changed) :
    update_capsule now cid body s =
      (.ok { body with time_changed := some now },
       { s with capsules := updateFirst (fun x => x.id == cid) (fun _ => { body with time_changed := some now }) s.capsules }) := by
  unfold update_capsule
  rw [hfind]
  simp only [hw, if_false]

/-- Behaviour of `update_capsule` when the capsule is found but the window has expired. -/
theorem update_capsule_expired (now : Int) (cid : Nat) (body : Capsule)
    (s : Store) (c : Capsule)
    (hfind : s.capsules.find? (fun x => x.id == cid) = some c)
    (hw : now > c.time_until_changed) :
    update_capsule now cid body s =
      (.error (.badRequest, "The modification period for this capsule has expired"), s) := by
  unfold update_capsule
  rw [hfind]
  simp [hw]

/-- Behaviour of `update_capsule` when no capsule has the requested id. -/
theorem update_capsule_not_found (now : Int) (cid : Nat) (body : Capsule)
    (s : Store)
    (hfind : s.capsules.find? (fun x => x.id == cid) = none) :
    update_capsule now cid body s = (.error (.notFound, "Capsule not found"), s) := by
  unfold update_capsule
  rw [hfind]

/-- C4 (amended): a successful PATCH increments the capsule's version by
exactly 1 (both in the returned capsule and in the stored record); the
full-record PUT, however, replaces the stored record by the request body
verbatim (plus `time_changed = now`), so its version becomes whatever the
body carries — it can decrease, skip, or repeat. -/
theorem capsule_version_increment_amended :
    (∀ (now : Int) (cid : Nat) (etag : Option Nat) (data : CapsulePatch)
        (s : Store) (c cap' : Capsule) (s' : Store),
        s.capsules.find? (fun x => x.id == cid) = some c →
        patch_capsule now cid etag data s = (.ok cap', s') →
        cap'.version = c.version + 1 ∧
        s'.capsules.find? (fun x => x.id == cid) = some cap') ∧
    (∀ (now : Int) (cid : Nat) (body : Capsule) (s : Store)
        (cap' : Capsule) (s' : Store),
        update_capsule now cid body s = (.ok cap', s') →
        cap' = { body with time_changed := some now } ∧
        cap'.version = body.version) := by
  constructor
  · intro now cid etag data s c cap' s' hfind heq
    by_cases hw : now > c.time_until_changed
    · rw [patch_capsule_expired now cid etag data s c hfind hw] at heq
      simp at heq
    · rw [patch_capsule_found now cid etag data s c hfind hw] at heq
      by_cases hconf : etagBodyConflict etag data.version = true
      · rw [hconf] at heq
        simp at heq
      · rw [Bool.not_eq_true] at hconf
        rw [hconf] at heq
        simp only [Bool.false_eq_true, if_false] at heq
        split at heq
        · simp at heq
        · split at heq
          · simp at heq
          · split at heq
            · rw [Prod.mk.injEq] at heq
              obtain ⟨h1, h2⟩ := heq
              injection h1 with h1
              constructor
              · rw [← h1, applyCapsulePatch_version]
              · rw [← h2]
                have hpres : ∀ x : Capsule,
                    ((applyCapsulePatch data now x).id == cid) = (x.id == cid) := by
                  intro x
                  rw [applyCapsulePatch_id]
                have hrw := find?_updateFirst (fun (x : Capsule) => x.id == cid)
                  (applyCapsulePatch data now) hpres s.capsules
                rw [hrw, hfind]
                simp [h1]
            · simp at heq
  · intro now cid body s cap' s' heq
    cases hfind : s.capsules.find? (fun x => x.id == cid) with
    | none =>
      rw [update_capsule_not_found now cid body s hfind] at heq
      simp at heq
    | some c =>
      by_cases hw : now > c.time_until_changed
      · rw [update_capsule_expired now cid body s c hfind hw] at heq
        simp at heq
      · rw [update_capsule_found now cid body s c hfind hw] at heq
        rw [Prod.mk.injEq] at heq
        obtain ⟨h1, h2⟩ := heq
        injection h1 with h1
        exact ⟨h1.symm, by rw [← h1]⟩

/-- C4 (counterexample): a full-record PUT carrying body version 7 on a
capsule at version 1 is accepted and leaves the stored and returned version
at 7, not 1 + 1 — the version can skip (or decrease) through PUT. -/
theorem put_overwrites_version :
    ((update_capsule 10 1 { c2cap with version := 7 } c2store).1.toOption.map
      (fun c => c.version)) = some 7 ∧
    (update_capsule 10 1 { c2cap with version := 7 } c2store).2.capsules.map
      (fun c => c.version) = [7] ∧
    c2store.capsules.map (fun c => c.version) = [1] :=
  ⟨rfl, rfl, rfl⟩

/-- Patch body used by the version-increment witness. -/
def c4patch : CapsulePatch := { name := some "z", description := none, version := some 1 }

/-- Expected returned capsule of the version-increment witness. -/
def c4capRes : Capsule := applyCapsulePatch c4patch 10 c2cap

/-- Expected store of the version-increment witness. -/
def c4storeRes : Store :=
  { c2store with capsules := updateFirst (fun x => x.id == 1) (applyCapsulePatch c4patch 10) c2store.capsules }

/-- Witness for `capsule_version_increment_amended`: a concrete successful
patch bumps capsule 1 from version 1 to 2. -/
theorem capsule_version_increment_amended_witness :
    (c2store.capsules.find? (fun x => x.id == 1) = some c2cap ∧
     patch_capsule 10 1 none c4patch c2store = (.ok c4capRes, c4storeRes)) ∧
    (c4capRes.version = c2cap.version + 1 ∧
     c4storeRes.capsules.find? (fun x => x.id == 1) = some c4capRes) :=
  ⟨⟨by rfl, by rfl⟩,
   capsule_version_increment_amended.1 10 1 none c4patch c2store c2cap c4capRes
     c4storeRes (by rfl) (by rfl)⟩

/-- C5 (amended): the duplicate-suppression ledger is absent from the active
code (it is commented out), so a creation request is never rejected as a
duplicate: capsule creation succeeds whenever the contributor exists, item
creation succeeds whenever the capsule exists and the window is open — in
both cases allocating the fresh id `max(existing) + 1`, which never collides
with a live id (so a retry creates a second entity instead of returning the
first). -/
theorem duplicate_creation_not_suppressed_amended :
    (∀ (now : Int) (data : NewCapsule) (s : Store),
        s.contributors.any (fun c => c.id == data.contributor_id) = true →
        ((create_and_update_capsule now data s).1.toOption.map (fun c => c.id))
          = some (nextId (s.capsules.map (fun c => c.id))) ∧
        nextId (s.capsules.map (fun c => c.id)) ∉ s.capsules.map (fun c => c.id)) ∧
    (∀ (now : Int) (cid : Nat) (data : NewItem) (s : Store) (cap : Capsule),
        s.capsules.find? (fun c => c.id == cid) = some cap →
        ¬ now > cap.time_until_changed →
        ((add_item_to_capsule now cid data s).1.toOption.map (fun it => it.id))
          = some (nextId (s.items.map (fun it => it.id))) ∧
        nextId (s.items.map (fun it => it.id)) ∉ s.items.map (fun it => it.id)) := by
  constructor
  · intro now data s hc
    refine ⟨?_, nextId_not_mem _⟩
    unfold create_and_update_capsule
    simp [hc]
    exact ⟨_, rfl, rfl⟩
  · intro now cid data s cap hfind hw
    refine ⟨?_, nextId_not_mem _⟩
    unfold add_item_to_capsule
    rw [hfind]
    simp [hw]
    exact ⟨_, rfl, rfl⟩

/-- Store for the duplicate-creation scenario: one contributor, nothing else. -/
def c5store : Store :=
  { contributors := [{ id := 1, capsule_ids := none, name := "N", email := "n@x" }],
    capsules := [], items := [], merge_records := [] }

/-- The creation payload submitted twice in the duplicate scenario. -/
def c5payload : NewCapsule :=
  { name := "X", description := "d", contributor_id := 1, time_open := 0 }

/-- C5 (counterexample): submitting the identical capsule-creation payload
twice succeeds both times — the second request is not rejected as a
duplicate, and it allocates the new id 2. -/
theorem duplicate_capsule_creation_accepted :
    ((create_and_update_capsule 0 c5payload c5store).1.toOption.map
      (fun c => c.id)) = some 1 ∧
    ((create_and_update_capsule 0 c5payload
        (create_and_update_capsule 0 c5payload c5store).2).1.toOption.map
      (fun c => c.id)) = some 2 :=
  ⟨rfl, rfl⟩

/-- Witness for `duplicate_creation_not_suppressed_amended` at `c5store`. -/
theorem duplicate_creation_not_suppressed_amended_witness :
    (c5store.contributors.any (fun c => c.id == c5payload.contributor_id) = true) ∧
    (((create_and_update_capsule 0 c5payload c5store).1.toOption.map (fun c => c.id))
       = some (nextId (c5store.capsules.map (fun c => c.id))) ∧
     nextId (c5store.capsules.map (fun c => c.id)) ∉
       c5store.capsules.map (fun c => c.id)) :=
  ⟨by rfl, duplicate_creation_not_suppressed_amended.1 0 c5payload c5store (by rfl)⟩

/-- C8 (amended): capsule and item creation allocate
`max(existing ids) + 1` (1 on an empty collection) and therefore never
collide with a live id; contributor creation, however, allocates
`length + 1`, which after a deletion can equal a live contributor's id. -/
theorem id_allocation_amended :
    (∀ (now : Int) (data : NewCapsule) (s : Store),
        s.contributors.any (fun c => c.id == data.contributor_id) = true →
        ((create_and_update_capsule now data s).1.toOption.map (fun c => c.id))
          = some (nextId (s.capsules.map (fun c => c.id)))) ∧
    (∀ (now : Int) (cid : Nat) (data : NewItem) (s : Store) (cap : Capsule),
        s.capsules.find? (fun c => c.id == cid) = some cap →
        ¬ now > cap.time_until_changed →
        ((add_item_to_capsule now cid data s).1.toOption.map (fun it => it.id))
          = some (nextId (s.items.map (fun it => it.id)))) ∧
    (∀ (data : NewContributor) (s : Store),
        s.contributors.any (fun c => c.email == data.email) = false →
        ((create_contributor data s).1.toOption.map (fun c => c.id))
          = some (s.contributors.length + 1)) := by
  refine ⟨?_, ?_, ?_⟩
  · intro now data s hc
    unfold create_and_update_capsule
    simp [hc]
    exact ⟨_, rfl, rfl⟩
  · intro now cid data s cap hfind hw
    unfold add_item_to_capsule
    rw [hfind]
    simp [hw]
    exact ⟨_, rfl, rfl⟩
  · intro data s hd
    unfold create_contributor
    simp [hd]
    exact ⟨_, rfl, rfl⟩

/-- Store for the id-reuse scenario: contributors 1 and 2. -/
def c8store : Store :=
  { contributors := [{ id := 1, capsule_ids := none, name := "N", email := "a@x" },
                     { id := 2, capsule_ids := none, name := "M", email := "b@x" }],
    capsules := [], items := [], merge_records := [] }

/-- C8 (counterexample): after deleting contributor 1 from a store holding
contributors 1 and 2, the next contributor creation allocates
`length + 1 = 2` — an id that still belongs to the live contributor 2, so a
deleted-era id is reassigned while a higher id exists (the claim's
`max + 1` rule would have produced 3). -/
theorem contributor_id_reused_after_deletion :
    ((create_contributor { name := "P", email := "c@x" }
        (delete_contributor 1 c8store).2).1.toOption.map (fun c => c.id)) = some 2 ∧
    2 ∈ (delete_contributor 1 c8store).2.contributors.map (fun c => c.id) :=
  ⟨rfl, by decide⟩

/-- Witness for `id_allocation_amended`: contributor creation on `c8store`
allocates `length + 1 = 3`. -/
theorem id_allocation_amended_witness :
    (c8store.contributors.any (fun c => c.email == "c@x") = false) ∧
    ((create_contributor { name := "P", email := "c@x" } c8store).1.toOption.map
      (fun c => c.id)) = some (c8store.contributors.length + 1) :=
  ⟨by rfl, id_allocation_amended.2.2 { name := "P", email := "c@x" } c8store (by rfl)⟩

/-- Capsule 1 of the merge scenarios (owns item 10, window open). -/
def mergeCapA : Capsule :=
  { id := 1, contributor_id := 1, name := "A", description := "a",
    time_created := 0, time_changed := some 0, time_open := 0,
    time_until_changed := 100, item_ids := some [10], version := 1 }

/-- Capsule 2 of the merge scenarios (owns item 20). -/
def mergeCapB : Capsule := { mergeCapA with id := 2, name := "B", item_ids := some [20] }

/-- A bystander capsule (no items). -/
def mergeCapC : Capsule := { mergeCapA with id := 3, name := "C", item_ids := none }

/-- An item of the merge scenarios. -/
def mergeItem (i c : Nat) : Item :=
  { id := i, id_capsule := c, type_c := "t", time_added := 0,
    description := "d", size := "s", path := "p", metadata := "m", version := 1 }

/-- Store in which capsule 2 is stored *before* capsule 1 (so `idx2 < idx1`):
 `capsules = [capsule 2, capsule 1, capsule 3]`, all owned by contributor 1. -/
def c1store : Store :=
  { contributors := [{ id := 1, capsule_ids := some [2, 1, 3], name := "N", email := "n@x" }],
    capsules := [mergeCapB, mergeCapA, mergeCapC],
    items := [mergeItem 10 1, mergeItem 20 2],
    merge_records := [] }

/-- Store holding exactly the two capsules being merged. -/
def c1storePanic : Store := { c1store with capsules := [mergeCapA, mergeCapB] }

/-- C1: merging capsule 2 into capsule 1 on `c1store` performs the store
mutation correctly (capsule 1 holds items [10, 20], item 20 re-parented,
capsule 2 gone, one merge record), but the *returned* capsule — built by
indexing `capsules[idx1]` after `capsules.remove(idx2)` with `idx2 < idx1` —
is the unrelated capsule 3 (with its empty `item_ids`), not the surviving
capsule 1; and on a store holding just the two capsules the same
post-removal indexing falls out of bounds (a panic, modelled as `none`). -/
theorem merge_returns_displaced_capsule :
    (merge_capsules 10 1 2 c1store).map (fun out =>
      ((match out.1 with | .ok d => some (d.id, d.item_ids) | .error _ => none),
       out.2.capsules.map (fun c => (c.id, c.item_ids)),
       out.2.items.map (fun i => (i.id, i.id_capsule)),
       out.2.merge_records.length))
      = some (some (3, none),
              [(1, some [10, 20]), (3, none)],
              [(10, 1), (20, 1)], 1) ∧
    merge_capsules 10 1 2 c1storePanic = none :=
  ⟨rfl, rfl⟩

/-- Capsule 1 with its modification deadline already in the past at `now = 10`. -/
def c6cap1 : Capsule := { mergeCapA with time_until_changed := 5 }

/-- Store for the modification-window merge scenario. -/
def c6store : Store := { c1store with capsules := [c6cap1, mergeCapB, mergeCapC] }

/-- C6: although capsule 1's `time_until_changed` (5) is already exceeded at
`now = 10`, the merge succeeds — the handler compares `time_changed > now`
instead of `now > time_until_changed`, so the modification window is never
enforced. -/
theorem merge_ignores_modification_deadline :
    ((c6store.capsules.find? (fun c => c.id == 1)).map
      (fun c => c.time_until_changed)) = some 5 ∧
    ((10 : Int) > 5) ∧
    ((merge_capsules 10 1 2 c6store).map (fun out =>
        match out.1 with | .ok _ => true | .error _ => false) = some true) :=
  ⟨rfl, by decide, rfl⟩

/-- Store with three capsules for the pagination panic. -/
def c9storeA : Store := { c1store with capsules := [mergeCapA, mergeCapB, mergeCapC] }

/-- Store whose only capsule (id 3) has no `item_ids` list. -/
def c9storeB : Store := { c1store with capsules := [mergeCapC] }

/-- Store in which capsule 1 has `time_changed` unset. -/
def c9storeC : Store :=
  { c1store with capsules := [{ mergeCapA with time_changed := none }, mergeCapB, mergeCapC] }

/-- C9: three core handlers panic (modelled as `none`) instead of returning
an error: listing page 2 of a 3-element collection (start offset 10 exceeds
the clamped slice bound), deleting an item from a capsule whose `item_ids`
is absent (`as_mut().unwrap()`), and merging when `time_changed` is unset
(`time_changed.unwrap()`). -/
theorem core_handlers_panic :
    list_capsules (some 2) none c9storeA = none ∧
    delete_capsule_item 0 3 7 c9storeB = none ∧
    merge_capsules 10 1 2 c9storeC = none :=
  ⟨rfl, rfl, rfl⟩

/-- C10 (counterexample): three multi-collection handlers do not acquire
their locks as a subsequence of the claimed global order
Contributor → Capsule → Item. -/
theorem multi_collection_lock_order_violated :
    delete_capsule_locks.isSublist claimedGlobalLockOrder = false ∧
    add_item_to_capsule_locks.isSublist claimedGlobalLockOrder = false ∧
    merge_capsules_locks.isSublist claimedGlobalLockOrder = false := by
  decide

/-- C10 (amended): the handlers acquire their locks in mutually inconsistent
orders — `delete_contributor` takes Contributor → Capsule → Item, while
`delete_capsule` and `merge_capsules` take Capsule → Item → Contributor and
`add_item_to_capsule` / `patch_capsule_item_description` take Item → Capsule;
in particular `delete_contributor` acquires the Capsule lock before the Item
lock while `add_item_to_capsule` acquires them in the opposite order, so no
single global acquisition order covers every multi-collection operation. -/
theorem lock_orders_inconsistent_amended :
    delete_contributor_locks =
      [LockTarget.contributorsLock, LockTarget.capsulesLock, LockTarget.itemsLock] ∧
    delete_capsule_locks =
      [LockTarget.capsulesLock, LockTarget.itemsLock, LockTarget.contributorsLock] ∧
    merge_capsules_locks =
      [LockTarget.capsulesLock, LockTarget.itemsLock, LockTarget.contributorsLock,
       LockTarget.mergeRecordsLock] ∧
    add_item_to_capsule_locks = [LockTarget.itemsLock, LockTarget.capsulesLock] ∧
    patch_item_locks = [LockTarget.itemsLock, LockTarget.capsulesLock] ∧
    delete_contributor_locks.indexOf LockTarget.capsulesLock <
      delete_contributor_locks.indexOf LockTarget.itemsLock ∧
    add_item_to_capsule_locks.indexOf LockTarget.itemsLock <
      add_item_to_capsule_locks.indexOf LockTarget.capsulesLock := by
  decide
